import Mathlib

set_option maxHeartbeats 1000000
set_option maxRecDepth 8000

/-!
Verification development for the `io_import_glr` GLR importer.

The definitions below are a shallow embedding of the Python sources
`import_glr.py`, `utils.py` and `shader.py`:

* machine integers (u8/u16/u32/u64 fields of the binary format) are
  modelled as `Nat`; byte streams as `List Nat`;
* IEEE-754 `f32` fields are never interpreted arithmetically by the code
  under verification, so a float is modelled by its raw little-endian
  32-bit pattern (a `Nat`); the single float operation performed during
  decoding, the negation in the Y-up to Z-up axis swap, is modelled as a
  sign-bit flip;
* Python dictionaries used as lookup tables are modelled as
  `Nat → Option String` (a missing key, which raises `KeyError` in
  Python, is `none`);
* fallible decoding returns `Except GlrError` / `Option`.
-/

/-! ## utils.py : configuration-state decoding -/

/-- `get_texture_filter` from utils.py: bits 44..45 of the other-mode
register select the texture filter; 0 is point sampling. -/
def get_texture_filter (other_mode : Nat) : String :=
  if (other_mode >>> 44) &&& 0x3 = 0 then "Closest" else "Linear"

/-- `get_texture_wrap_mode` from utils.py: bit 0 = MIRROR, bit 1 = CLAMP. -/
def get_texture_wrap_mode (wrap : Nat) : String :=
  if wrap = 0 then "Repeat"
  else if wrap = 1 then "Mirror"
  else "Clamp"

/-- Microcode ids of the F3DEX2 family (utils.py `get_backface_culling`). -/
def f3dex2Microcodes : List Nat := [2, 5, 7, 13, 17, 18, 21]

/-- `get_backface_culling` from utils.py. -/
def get_backface_culling (geometry_mode microcode : Nat) : Bool :=
  let mask := if microcode ∈ f3dex2Microcodes then 0x2000 >>> 3 else 0x2000
  (geometry_mode &&& mask) != 0

/-- `show_combiner_formula` from utils.py: human-readable rendering of
`(a - b) × c + d`, with the identity-simplification branches exactly as
in the source (including the `a == '0'` branch, which formats `a`). -/
def show_combiner_formula (a b c d : String) : String :=
  let sub :=
    if a = b then "0"
    else if b = "0" then a
    else if a = "0" then "- " ++ a
    else "(" ++ a ++ " - " ++ b ++ ")"
  let mul :=
    if sub = "0" then "0"
    else if c = "0" then "0"
    else if sub = "1" then c
    else if c = "1" then sub
    else sub ++ " × " ++ c
  let add :=
    if mul = "0" then d
    else if d = "0" then mul
    else mul ++ " + " ++ d
  add

/-! ## utils.py : combiner mux decoding -/

def RGB_A_TABLE : Nat → Option String
  | 0 => some "Combined Color"
  | 1 => some "Texel 0 Color"
  | 2 => some "Texel 1 Color"
  | 3 => some "Primitive Color"
  | 4 => some "Shade Color"
  | 5 => some "Env Color"
  | 6 => some "1"
  | 7 => some "Noise"
  | _ => none

def RGB_B_TABLE : Nat → Option String
  | 0 => some "Combined Color"
  | 1 => some "Texel 0 Color"
  | 2 => some "Texel 1 Color"
  | 3 => some "Primitive Color"
  | 4 => some "Shade Color"
  | 5 => some "Env Color"
  | 6 => some "Key Center"
  | 7 => some "Convert K4"
  | _ => none

def RGB_C_TABLE : Nat → Option String
  | 0 => some "Combined Color"
  | 1 => some "Texel 0 Color"
  | 2 => some "Texel 1 Color"
  | 3 => some "Primitive Color"
  | 4 => some "Shade Color"
  | 5 => some "Env Color"
  | 6 => some "Key Scale"
  | 7 => some "Combined Alpha"
  | 8 => some "Texel 0 Alpha"
  | 9 => some "Texel 1 Alpha"
  | 10 => some "Primitive Alpha"
  | 11 => some "Shade Alpha"
  | 12 => some "Env Alpha"
  | 13 => some "LOD Fraction"
  | 14 => some "Primitive LOD Fraction"
  | 15 => some "Convert K5"
  | _ => none

def RGB_D_TABLE : Nat → Option String
  | 0 => some "Combined Color"
  | 1 => some "Texel 0 Color"
  | 2 => some "Texel 1 Color"
  | 3 => some "Primitive Color"
  | 4 => some "Shade Color"
  | 5 => some "Env Color"
  | 6 => some "1"
  | 7 => some "0"
  | _ => none

def ALPHA_ABD_TABLE : Nat → Option String
  | 0 => some "Combined Alpha"
  | 1 => some "Texel 0 Alpha"
  | 2 => some "Texel 1 Alpha"
  | 3 => some "Primitive Alpha"
  | 4 => some "Shade Alpha"
  | 5 => some "Env Alpha"
  | 6 => some "1"
  | 7 => some "0"
  | _ => none

def ALPHA_C_TABLE : Nat → Option String
  | 0 => some "LOD Fraction"
  | 1 => some "Texel 0 Alpha"
  | 2 => some "Texel 1 Alpha"
  | 3 => some "Primitive Alpha"
  | 4 => some "Shade Alpha"
  | 5 => some "Env Alpha"
  | 6 => some "Primitive LOD Fraction"
  | 7 => some "0"
  | _ => none

/-- One combiner cycle: the 8-tuple `(a, b, c, d)` of the RGB equation
followed by `(a, b, c, d)` of the Alpha equation, as Python returns
`(*rgb, *alpha)`; fields are in tuple order. -/
structure Comb where
  a : String
  b : String
  c : String
  d : String
  aA : String
  bA : String
  cA : String
  dA : String
deriving DecidableEq

/-- One blender cycle: the tuple `(p, a, m, b)`; fields in tuple order. -/
structure B4 where
  p : String
  a : String
  m : String
  b : String
deriving DecidableEq

/-- `decode_rgb_combiner_abcd` from utils.py: `dict.get(key, '0')`
defaults a missing index to the constant `"0"`. -/
def decode_rgb_combiner_abcd (a b c d : Nat) : String × String × String × String :=
  ((RGB_A_TABLE a).getD "0", (RGB_B_TABLE b).getD "0",
   (RGB_C_TABLE c).getD "0", (RGB_D_TABLE d).getD "0")

/-- `decode_alpha_combiner_abcd` from utils.py: `dict[key]` raises on a
missing index, modelled by `none`. -/
def decode_alpha_combiner_abcd (a b c d : Nat) :
    Option (String × String × String × String) :=
  match ALPHA_ABD_TABLE a, ALPHA_ABD_TABLE b, ALPHA_C_TABLE c, ALPHA_ABD_TABLE d with
  | some x, some y, some z, some w => some (x, y, z, w)
  | _, _, _, _ => none

/-- `decode_combiner_mode` from utils.py: extracts the 16 sub-fields of
the 64-bit combiner mux by shift-and-mask and maps them through the
lookup tables; returns the two per-cycle 8-tuples. -/
def decode_combiner_mode (mux : Nat) : Option (Comb × Comb) :=
  let a_rgb1 := (mux >>> 52) &&& 0xF
  let c_rgb1 := (mux >>> 47) &&& 0x1F
  let a_a1 := (mux >>> 44) &&& 0x7
  let c_a1 := (mux >>> 41) &&& 0x7
  let a_rgb2 := (mux >>> 37) &&& 0xF
  let c_rgb2 := (mux >>> 32) &&& 0x1F
  let b_rgb1 := (mux >>> 28) &&& 0xF
  let b_rgb2 := (mux >>> 24) &&& 0xF
  let a_a2 := (mux >>> 21) &&& 0x7
  let c_a2 := (mux >>> 18) &&& 0x7
  let d_rgb1 := (mux >>> 15) &&& 0x7
  let b_a1 := (mux >>> 12) &&& 0x7
  let d_a1 := (mux >>> 9) &&& 0x7
  let d_rgb2 := (mux >>> 6) &&& 0x7
  let b_a2 := (mux >>> 3) &&& 0x7
  let d_a2 := (mux >>> 0) &&& 0x7
  match decode_alpha_combiner_abcd a_a1 b_a1 c_a1 d_a1,
        decode_alpha_combiner_abcd a_a2 b_a2 c_a2 d_a2 with
  | some (xa1, xb1, xc1, xd1), some (xa2, xb2, xc2, xd2) =>
    match decode_rgb_combiner_abcd a_rgb1 b_rgb1 c_rgb1 d_rgb1,
          decode_rgb_combiner_abcd a_rgb2 b_rgb2 c_rgb2 d_rgb2 with
    | (ra1, rb1, rc1, rd1), (ra2, rb2, rc2, rd2) =>
      some (⟨ra1, rb1, rc1, rd1, xa1, xb1, xc1, xd1⟩,
            ⟨ra2, rb2, rc2, rd2, xa2, xb2, xc2, xd2⟩)
  | _, _ => none

/-! ## utils.py : blender mux decoding -/

def BLENDER_PM_TABLE : Nat → Option String
  | 0 => some "Combined Color"
  | 1 => some "Framebuffer Color"
  | 2 => some "Blend Color"
  | 3 => some "Fog Color"
  | _ => none

def BLENDER_A_TABLE : Nat → Option String
  | 0 => some "Combined Alpha"
  | 1 => some "Fog Alpha"
  | 2 => some "Shade Alpha"
  | 3 => some "0"
  | _ => none

def BLENDER_B_TABLE : Nat → Option String
  | 0 => some "One Minus A"
  | 1 => some "Framebuffer Alpha"
  | 2 => some "1"
  | 3 => some "0"
  | _ => none

/-- `decode_blender_pamb` from utils.py (dict lookups raise on a missing
index, modelled by `none`). -/
def decode_blender_pamb (p a m b : Nat) : Option B4 :=
  match BLENDER_PM_TABLE p, BLENDER_A_TABLE a, BLENDER_PM_TABLE m, BLENDER_B_TABLE b with
  | some xp, some xa, some xm, some xb => some ⟨xp, xa, xm, xb⟩
  | _, _, _, _ => none

/-- `decode_blender_mode` from utils.py: eight 2-bit sub-fields of the
other-mode register, two `(p, a, m, b)` cycles. -/
def decode_blender_mode (other_mode : Nat) : Option (B4 × B4) :=
  let b_2 := (other_mode >>> 16) &&& 0x3
  let b_1 := (other_mode >>> 18) &&& 0x3
  let m_2 := (other_mode >>> 20) &&& 0x3
  let m_1 := (other_mode >>> 22) &&& 0x3
  let a_2 := (other_mode >>> 24) &&& 0x3
  let a_1 := (other_mode >>> 26) &&& 0x3
  let p_2 := (other_mode >>> 28) &&& 0x3
  let p_1 := (other_mode >>> 30) &&& 0x3
  match decode_blender_pamb p_1 a_1 m_1 b_1, decode_blender_pamb p_2 a_2 m_2 b_2 with
  | some pamb1, some pamb2 => some (pamb1, pamb2)
  | _, _ => none

/-! ## Specification-side bit-field extraction (from the claims' words)

`bitSlice x off w` reads the `w`-bit field of `x` at bit offset `off`
using plain division and remainder; the claim theorems relate the
source decoders to tuples written with these explicit offset/width
extractions. -/

def bitSlice (x off w : Nat) : Nat := x / 2 ^ off % 2 ^ w

/-- Cycle-1 combiner tuple written per the spec: explicit offsets
a@52:4, b@28:4, c@47:5, d@15:3 (RGB) and a@44:3, b@12:3, c@41:3, d@9:3
(Alpha), each mapped through its table with missing entries defaulting
to `"0"`. -/
def specCombinerCycle1 (mux : Nat) : Comb :=
  ⟨(RGB_A_TABLE (bitSlice mux 52 4)).getD "0",
   (RGB_B_TABLE (bitSlice mux 28 4)).getD "0",
   (RGB_C_TABLE (bitSlice mux 47 5)).getD "0",
   (RGB_D_TABLE (bitSlice mux 15 3)).getD "0",
   (ALPHA_ABD_TABLE (bitSlice mux 44 3)).getD "0",
   (ALPHA_ABD_TABLE (bitSlice mux 12 3)).getD "0",
   (ALPHA_C_TABLE (bitSlice mux 41 3)).getD "0",
   (ALPHA_ABD_TABLE (bitSlice mux 9 3)).getD "0"⟩

/-- Cycle-2 combiner tuple written per the spec: offsets a@37:4,
b@24:4, c@32:5, d@6:3 (RGB) and a@21:3, b@3:3, c@18:3, d@0:3 (Alpha). -/
def specCombinerCycle2 (mux : Nat) : Comb :=
  ⟨(RGB_A_TABLE (bitSlice mux 37 4)).getD "0",
   (RGB_B_TABLE (bitSlice mux 24 4)).getD "0",
   (RGB_C_TABLE (bitSlice mux 32 5)).getD "0",
   (RGB_D_TABLE (bitSlice mux 6 3)).getD "0",
   (ALPHA_ABD_TABLE (bitSlice mux 21 3)).getD "0",
   (ALPHA_ABD_TABLE (bitSlice mux 3 3)).getD "0",
   (ALPHA_C_TABLE (bitSlice mux 18 3)).getD "0",
   (ALPHA_ABD_TABLE (bitSlice mux 0 3)).getD "0"⟩

/-- Cycle-1 blender tuple written per the spec: p@30:2, a@26:2, m@22:2,
b@18:2. -/
def specBlenderCycle1 (om : Nat) : B4 :=
  ⟨(BLENDER_PM_TABLE (bitSlice om 30 2)).getD "0",
   (BLENDER_A_TABLE (bitSlice om 26 2)).getD "0",
   (BLENDER_PM_TABLE (bitSlice om 22 2)).getD "0",
   (BLENDER_B_TABLE (bitSlice om 18 2)).getD "0"⟩

/-- Cycle-2 blender tuple written per the spec: p@28:2, a@24:2, m@20:2,
b@16:2. -/
def specBlenderCycle2 (om : Nat) : B4 :=
  ⟨(BLENDER_PM_TABLE (bitSlice om 28 2)).getD "0",
   (BLENDER_A_TABLE (bitSlice om 24 2)).getD "0",
   (BLENDER_PM_TABLE (bitSlice om 20 2)).getD "0",
   (BLENDER_B_TABLE (bitSlice om 16 2)).getD "0"⟩

/-! ## Blender-simplicity classifiers -/

/-- `make_simple_blender_lerp_node`'s `is_simple` test from
import_glr.py: a lerp node is produced iff this is `true`. -/
def isSimpleLerp (bl : B4) : Bool :=
  bl.b == "One Minus A" && bl.p != "Framebuffer Color" && bl.m != "Framebuffer Color"

/-- `N64Shader.make_simple_blender_mix_node`'s `is_simple` test from
shader.py: a mix node is produced iff this is `true`. -/
def isSimpleMix (bl : B4) : Bool :=
  bl.b == "One Minus A"
    && !(["Framebuffer Color", "Framebuffer Alpha"].contains bl.p)
    && !(["Framebuffer Color", "Framebuffer Alpha"].contains bl.m)

/-- The fog-level substitution applied in `create_material`: every
occurrence of `"Shade Alpha"` becomes `"Fog Level"`. -/
def substFog (s : String) : String :=
  if s = "Shade Alpha" then "Fog Level" else s

def substFog8 (c : Comb) : Comb :=
  ⟨substFog c.a, substFog c.b, substFog c.c, substFog c.d,
   substFog c.aA, substFog c.bA, substFog c.cA, substFog c.dA⟩

def substFog4 (bl : B4) : B4 :=
  ⟨substFog bl.p, substFog bl.a, substFog bl.m, substFog bl.b⟩

/-- The conditional fog substitution of `create_material`: applied only
when the geometry-mode fog bit is set. -/
def applyFogSub4 (fog : Bool) (bl : B4) : B4 :=
  if fog then substFog4 bl else bl

/-! ## shader.py : texture-coordinate wrap emulation

`N64Shader.make_texcoord_wrapper` builds, per axis, a chain of Blender
math nodes.  Following the sockets from the Separate-XYZ node to the
Combine-XYZ node, the data flows through the Clamp node first (created
last, hence upstream) and then through the Wrap / Ping-Pong node.  The
node operations are modelled on `Int` (they are exact on the integer
inputs considered here): `WRAP` with minimum 0 is the Euclidean
remainder; `PINGPONG` with scale `s` is Blender's
`abs(fract((v - s)/(2 s)) * 2 s - s)`. -/

def clampNode (x mx : Int) : Int := max 0 (min x mx)

def wrapNode (x mx : Int) : Int := Int.emod x mx

def pingpongNode (x scale : Int) : Int :=
  abs (Int.emod (x - scale) (2 * scale) - scale)

/-- One axis of the `make_texcoord_wrapper` math-node chain (shader.py):
a Clamp node to `[0, clamp]` when `clamp > 0`, feeding a Wrap node
(period `wrap`) or a Ping-Pong node (scale `wrap`) when `wrap > 0`. -/
def texAxisCoord (clamp wrap : Int) (mirror : Bool) (x : Int) : Int :=
  let x1 := if 0 < clamp then clampNode x clamp else x
  if 0 < wrap then
    (if mirror then pingpongNode x1 wrap else wrapNode x1 wrap)
  else x1

/-! ## import_glr.py : byte-stream primitives

`struct.unpack('<...')` is little-endian with no padding.  `byteAt`
reads one byte (0 past the end, which is harmless because every use is
guarded by an exact length check, as `struct.unpack` requires an exact
buffer size). -/

def byteAt (bs : List Nat) (i : Nat) : Nat := bs.getD i 0

def wordAt : Nat → List Nat → Nat → Nat
  | 0, _, _ => 0
  | n + 1, bs, i => byteAt bs i + 256 * wordAt n bs (i + 1)

def u16At (bs : List Nat) (i : Nat) : Nat := wordAt 2 bs i

def u32At (bs : List Nat) (i : Nat) : Nat := wordAt 4 bs i

def u64At (bs : List Nat) (i : Nat) : Nat := wordAt 8 bs i

/-! ## import_glr.py : header decoding -/

/-- Error taxonomy of the importer.  `structError` stands for Python's
`struct.error`, raised by `struct.unpack` when the stream is truncated
mid-record. -/
inductive GlrError where
  | badMagic
  | outdatedFormat (v : Nat)
  | unknownVersion (v : Nat)
  | structError
deriving DecidableEq

structure GlrHeader where
  romName : List Nat
  numTris : Nat
  microcode : Nat
deriving DecidableEq

/-- `b'GL64R\0'`. -/
def magicBytes : List Nat := [0x47, 0x4C, 0x36, 0x34, 0x52, 0x00]

/-- `GlrImporter.load_header`: check the 6-byte magic, the u16 version
(versions 1-2 are "outdated", any other non-3 value is "unknown"), then
read the 20-byte ROM name, the u32 triangle count and the u32 microcode
id.  Returns the header and the remaining stream. -/
def loadHeader (bs : List Nat) : Except GlrError (GlrHeader × List Nat) :=
  if bs.take 6 = magicBytes then
    let vb := (bs.drop 6).take 2
    if vb.length = 2 then
      let v := u16At vb 0
      if 0 < v ∧ v < 3 then .error (.outdatedFormat v)
      else if v ≠ 3 then .error (.unknownVersion v)
      else
        let nb := (bs.drop 28).take 4
        let mb := (bs.drop 32).take 4
        if nb.length = 4 ∧ mb.length = 4 then
          .ok ({ romName := (bs.drop 8).take 20,
                 numTris := u32At nb 0,
                 microcode := u32At mb 0 }, bs.drop 36)
        else .error .structError
    else .error .structError
  else .error .badMagic

/-! ## import_glr.py : per-triangle records -/

/-- The 132-byte per-triangle state record, unpacked with
`'<4f4f4f4f2f2f2iQQIQ4BQ4B'`.  Float and i32 fields are kept as raw
little-endian words. -/
structure StateRec where
  fogColor : List Nat
  blendColor : List Nat
  envColor : List Nat
  primColor : List Nat
  primLodL : Nat
  primLodM : Nat
  fogMult : Nat
  fogOff : Nat
  k4 : Nat
  k5 : Nat
  combinerMux : Nat
  otherMode : Nat
  geometryMode : Nat
  tex0Crc : Nat
  tex0MaskS : Nat
  tex0MaskT : Nat
  tex0WrapS : Nat
  tex0WrapT : Nat
  tex1Crc : Nat
  tex1MaskS : Nat
  tex1MaskT : Nat
  tex1WrapS : Nat
  tex1WrapT : Nat
deriving DecidableEq

/-- Unpack the 132-byte state record; `none` models `struct.error` on a
wrong-sized buffer. -/
def parseState (bs : List Nat) : Option StateRec :=
  if bs.length = 132 then
    some
      { fogColor := [u32At bs 0, u32At bs 4, u32At bs 8, u32At bs 12]
        blendColor := [u32At bs 16, u32At bs 20, u32At bs 24, u32At bs 28]
        envColor := [u32At bs 32, u32At bs 36, u32At bs 40, u32At bs 44]
        primColor := [u32At bs 48, u32At bs 52, u32At bs 56, u32At bs 60]
        primLodL := u32At bs 64
        primLodM := u32At bs 68
        fogMult := u32At bs 72
        fogOff := u32At bs 76
        k4 := u32At bs 80
        k5 := u32At bs 84
        combinerMux := u64At bs 88
        otherMode := u64At bs 96
        geometryMode := u32At bs 104
        tex0Crc := u64At bs 108
        tex0MaskS := byteAt bs 116
        tex0MaskT := byteAt bs 117
        tex0WrapS := byteAt bs 118
        tex0WrapT := byteAt bs 119
        tex1Crc := u64At bs 120
        tex1MaskS := byteAt bs 128
        tex1MaskT := byteAt bs 129
        tex1WrapS := byteAt bs 130
        tex1WrapT := byteAt bs 131 }
  else none

/-- Unpack a 44-byte vertex record (`'<11f'`) into its 11 raw words
`x, y, z, r, g, b, a, s0, t0, s1, t1`. -/
def parseVert (bs : List Nat) : Option (List Nat) :=
  if bs.length = 44 then some ((List.range 11).map fun i => u32At bs (4 * i))
  else none

/-- A decoded triangle: three 11-word vertex records and the state
record. -/
structure Tri where
  v1 : List Nat
  v2 : List Nat
  v3 : List Nat
  st : StateRec
deriving DecidableEq

/-- The 9-tuple `matinfo` built in `do_tris` (the material dedup key). -/
structure MatKey where
  combinerMux : Nat
  otherMode : Nat
  geometryMode : Nat
  tex0Crc : Nat
  tex0WrapS : Nat
  tex0WrapT : Nat
  tex1Crc : Nat
  tex1WrapS : Nat
  tex1WrapT : Nat
deriving DecidableEq

def matKeyOf (t : Tri) : MatKey :=
  { combinerMux := t.st.combinerMux
    otherMode := t.st.otherMode
    geometryMode := t.st.geometryMode
    tex0Crc := t.st.tex0Crc
    tex0WrapS := t.st.tex0WrapS
    tex0WrapT := t.st.tex0WrapT
    tex1Crc := t.st.tex1Crc
    tex1WrapS := t.st.tex1WrapS
    tex1WrapT := t.st.tex1WrapT }

/-- The importer options that influence `do_tris` filtering:
`filter_mode = true` is deny-list (blacklist) mode, `false` is
allow-list (whitelist) mode. -/
structure Opts where
  filterMode : Bool
  filterList : List Nat

/-- One iteration of the `do_tris` read loop: read 3 x 44 vertex bytes
and 132 state bytes, unpack the state (truncation raises), apply the
CRC filter (a filtered triangle is skipped without unpacking its
vertices), unpack the vertices.  Returns the decoded triangle (`none`
if filtered) and the remaining stream. -/
def stepTri (opts : Opts) (bs : List Nat) : Except GlrError (Option Tri × List Nat) :=
  let c1 := bs.take 44
  let r1 := bs.drop 44
  let c2 := r1.take 44
  let r2 := r1.drop 44
  let c3 := r2.take 44
  let r3 := r2.drop 44
  let cst := r3.take 132
  let rest := r3.drop 132
  match parseState cst with
  | none => .error .structError
  | some st =>
    let member := decide (st.tex0Crc ∈ opts.filterList)
    let blacklisted := if !opts.filterMode then !member else member
    if blacklisted then .ok (none, rest)
    else
      match parseVert c1, parseVert c2, parseVert c3 with
      | some w1, some w2, some w3 => .ok (some ⟨w1, w2, w3, st⟩, rest)
      | _, _, _ => .error .structError

/-- The accumulated buffers of `do_tris`. -/
structure Output where
  verts : List (Nat × Nat × Nat)
  faces : List (Nat × Nat × Nat)
  shadeColors : List Nat
  primColors : List Nat
  envColors : List Nat
  blendColors : List Nat
  fogColors : List Nat
  fogLevels : List Nat
  uvs0 : List Nat
  uvs1 : List Nat
  mats : List MatKey
  faceMaterials : List Nat
deriving DecidableEq

def emptyOutput : Output :=
  { verts := [], faces := [], shadeColors := [], primColors := [],
    envColors := [], blendColors := [], fogColors := [], fogLevels := [],
    uvs0 := [], uvs1 := [], mats := [], faceMaterials := [] }

/-- The Y-up to Z-up axis swap `(x, -z, y)`; float negation is a
sign-bit flip on the raw word. -/
def vertPos (w : List Nat) : Nat × Nat × Nat :=
  (w.getD 0 0, w.getD 2 0 ^^^ 0x80000000, w.getD 1 0)

/-- Per-corner processing of `do_tris`: shade color, UVs, position and
fog level (the shade alpha when geometry-mode bit 0x10000 is set, else
0). -/
def emitVert (geom : Nat) (out : Output) (w : List Nat) : Output :=
  { out with
    shadeColors := out.shadeColors ++ [w.getD 3 0, w.getD 4 0, w.getD 5 0, w.getD 6 0]
    uvs0 := out.uvs0 ++ [w.getD 7 0, w.getD 8 0]
    uvs1 := out.uvs1 ++ [w.getD 9 0, w.getD 10 0]
    verts := out.verts ++ [vertPos w]
    fogLevels := out.fogLevels ++ [if geom &&& 0x10000 ≠ 0 then w.getD 6 0 else 0] }

/-- Position of `k` in `ms`; equals `ms.length` when `k` is absent.
This is exactly the index `dict.setdefault(matinfo, len(cache))`
yields: the insertion-order position for a present key, the current
size for a fresh key. -/
def idxOfKey {α : Type} [DecidableEq α] (k : α) : List α → Nat
  | [] => 0
  | x :: xs => if x = k then 0 else idxOfKey k xs + 1

/-- Ordered-map insertion: append the key if it is not yet present. -/
def insertKey {α : Type} [DecidableEq α] (ms : List α) (k : α) : List α :=
  if k ∈ ms then ms else ms ++ [k]

/-- Processing of one surviving triangle in `do_tris`: emit the three
corners, the per-triangle vertex colors, the face, and the material
index obtained from the insertion-ordered dedup cache. -/
def emitTri (out : Output) (t : Tri) : Output :=
  let geom := t.st.geometryMode
  let out1 := emitVert geom (emitVert geom (emitVert geom out t.v1) t.v2) t.v3
  let out2 :=
    { out1 with
      primColors := out1.primColors ++ t.st.primColor ++ t.st.primColor ++ t.st.primColor
      envColors := out1.envColors ++ t.st.envColor ++ t.st.envColor ++ t.st.envColor
      blendColors := out1.blendColors ++ t.st.blendColor ++ t.st.blendColor ++ t.st.blendColor
      fogColors := out1.fogColors ++ t.st.fogColor ++ t.st.fogColor ++ t.st.fogColor
      faces := out1.faces ++
        [(out1.verts.length - 3, out1.verts.length - 2, out1.verts.length - 1)] }
  let k := matKeyOf t
  { out2 with
    mats := insertKey out2.mats k
    faceMaterials := out2.faceMaterials ++ [idxOfKey k out2.mats] }

/-- The `do_tris` read loop over `numTris` records. -/
def doTrisLoop (opts : Opts) : Nat → List Nat → Output → Except GlrError Output
  | 0, _, out => .ok out
  | n + 1, bs, out =>
    match stepTri opts bs with
    | .error e => .error e
    | .ok (none, rest) => doTrisLoop opts n rest out
    | .ok (some t, rest) => doTrisLoop opts n rest (emitTri out t)

/-- The list of surviving triangles produced by the same loop (used to
relate `doTrisLoop` to a pure fold over triangles). -/
def decodeTriList (opts : Opts) : Nat → List Nat → Except GlrError (List Tri)
  | 0, _ => .ok []
  | n + 1, bs =>
    match stepTri opts bs with
    | .error e => .error e
    | .ok (none, rest) => decodeTriList opts n rest
    | .ok (some t, rest) => (decodeTriList opts n rest).map (t :: ·)

/-- `GlrImporter.load`: header then triangle loop. -/
def glrDecode (opts : Opts) (bs : List Nat) : Except GlrError Output :=
  match loadHeader bs with
  | .error e => .error e
  | .ok (hdr, rest) => doTrisLoop opts hdr.numTris rest emptyOutput

/-! ## import_glr.py : create_material -/

/-- One texture descriptor dict built in `create_material`. -/
structure TexDesc where
  crc : Nat
  filter : String
  wrapS : String
  wrapT : String
  uvMap : String
deriving DecidableEq

/-- The `args` tuple `create_material` hands to `setup_n64_material`:
the resolved pipeline description for one material key. -/
structure Args where
  combiner1 : Comb
  combiner2 : Option Comb
  blender1 : B4
  blender2 : Option B4
  tex0 : TexDesc
  tex1 : TexDesc
  cullBackface : Bool
  showAlpha : Bool
deriving DecidableEq

/-- The pure pipeline resolution performed by `create_material` for a
material key: cycle type from other-mode bits 52:2, combiner and
blender decode, conditional fog substitution, second cycles dropped
outside two-cycle mode, texture descriptors, culling and transparency
flags.  `none` models a `KeyError` escaping from the alpha/blender
table lookups. -/
def resolveArgs (microcode : Nat) (displayCulling showAlpha : Bool) (k : MatKey) :
    Option Args :=
  let cycleType := (k.otherMode >>> 52) &&& 0x3
  let twoCycle := cycleType == 1
  match decode_combiner_mode k.combinerMux, decode_blender_mode k.otherMode with
  | some (comb1, comb2), some (bl1, bl2) =>
    let fogOn := k.geometryMode &&& 0x10000 ≠ 0
    let comb1 := if fogOn then substFog8 comb1 else comb1
    let comb2 := if fogOn then substFog8 comb2 else comb2
    let bl1 := if fogOn then substFog4 bl1 else bl1
    let bl2 := if fogOn then substFog4 bl2 else bl2
    some
      { combiner1 := comb1
        combiner2 := if twoCycle then some comb2 else none
        blender1 := bl1
        blender2 := if twoCycle then some bl2 else none
        tex0 := { crc := k.tex0Crc, filter := get_texture_filter k.otherMode,
                  wrapS := get_texture_wrap_mode k.tex0WrapS,
                  wrapT := get_texture_wrap_mode k.tex0WrapT, uvMap := "UV0" }
        tex1 := { crc := k.tex1Crc, filter := get_texture_filter k.otherMode,
                  wrapS := get_texture_wrap_mode k.tex1WrapS,
                  wrapT := get_texture_wrap_mode k.tex1WrapT, uvMap := "UV1" }
        cullBackface := get_backface_culling k.geometryMode microcode && displayCulling
        showAlpha := showAlpha }
  | _, _ => none

/-- The material-creation loop of `do_tris`
(`for matinfo in matinfo_cache: create_material(matinfo)`).
`built` is the set of already-built materials, keyed by their resolved
pipeline content (the code keys its cache by a material name derived
from a content hash of the `args` tuple; the hash-named cache is
modelled content-for-content).  The returned list collects, in order,
every `args` tuple actually handed to `setup_n64_material` (a cache hit
reuses the existing material and hands nothing). -/
def createMaterialsLoop (microcode : Nat) (displayCulling showAlpha : Bool) :
    List MatKey → List Args → Option (List Args)
  | [], built => some built
  | k :: ks, built =>
    match resolveArgs microcode displayCulling showAlpha k with
    | none => none
    | some a =>
      createMaterialsLoop microcode displayCulling showAlpha ks
        (if a ∈ built then built else built ++ [a])

/-! ## Specification-side list helpers -/

/-- First-seen-order deduplication: keeps the first occurrence of every
element, in order of first appearance. -/
def dedupFS {α : Type} [DecidableEq α] : List α → List α
  | [] => []
  | k :: ks => k :: (dedupFS ks).filter (fun x => decide (x ≠ k))

/-- Occurrence count. -/
def occCount {α : Type} [DecidableEq α] : List α → α → Nat
  | [], _ => 0
  | x :: xs, a => (if x = a then 1 else 0) + occCount xs a

/-- Key accumulation of the dedup cache over a key sequence. -/
def accKeys {α : Type} [DecidableEq α] (ms : List α) (ks : List α) : List α :=
  ks.foldl insertKey ms

/-! ## Supporting lemmas: bit-field extraction -/

theorem and_mask3 (x : Nat) : x &&& 3 = x % 4 := by
  have h := Nat.and_pow_two_sub_one_eq_mod x 2
  norm_num at h
  exact h

theorem and_mask7 (x : Nat) : x &&& 7 = x % 8 := by
  have h := Nat.and_pow_two_sub_one_eq_mod x 3
  norm_num at h
  exact h

theorem and_mask15 (x : Nat) : x &&& 15 = x % 16 := by
  have h := Nat.and_pow_two_sub_one_eq_mod x 4
  norm_num at h
  exact h

theorem and_mask31 (x : Nat) : x &&& 31 = x % 32 := by
  have h := Nat.and_pow_two_sub_one_eq_mod x 5
  norm_num at h
  exact h

theorem alphaABD_lt (n : Nat) (h : n < 8) :
    ALPHA_ABD_TABLE n = some ((ALPHA_ABD_TABLE n).getD "0") := by
  interval_cases n <;> rfl

theorem alphaC_lt (n : Nat) (h : n < 8) :
    ALPHA_C_TABLE n = some ((ALPHA_C_TABLE n).getD "0") := by
  interval_cases n <;> rfl

theorem blenderPM_lt (n : Nat) (h : n < 4) :
    BLENDER_PM_TABLE n = some ((BLENDER_PM_TABLE n).getD "0") := by
  interval_cases n <;> rfl

theorem blenderA_lt (n : Nat) (h : n < 4) :
    BLENDER_A_TABLE n = some ((BLENDER_A_TABLE n).getD "0") := by
  interval_cases n <;> rfl

theorem blenderB_lt (n : Nat) (h : n < 4) :
    BLENDER_B_TABLE n = some ((BLENDER_B_TABLE n).getD "0") := by
  interval_cases n <;> rfl

theorem decode_alpha_total (a b c d : Nat)
    (ha : a < 8) (hb : b < 8) (hc : c < 8) (hd : d < 8) :
    decode_alpha_combiner_abcd a b c d =
      some ((ALPHA_ABD_TABLE a).getD "0", (ALPHA_ABD_TABLE b).getD "0",
            (ALPHA_C_TABLE c).getD "0", (ALPHA_ABD_TABLE d).getD "0") := by
  unfold decode_alpha_combiner_abcd
  rw [alphaABD_lt a ha, alphaABD_lt b hb, alphaC_lt c hc, alphaABD_lt d hd]
  simp only [Option.getD_some]

theorem decode_pamb_total (p a m b : Nat)
    (hp : p < 4) (ha : a < 4) (hm : m < 4) (hb : b < 4) :
    decode_blender_pamb p a m b =
      some ⟨(BLENDER_PM_TABLE p).getD "0", (BLENDER_A_TABLE a).getD "0",
            (BLENDER_PM_TABLE m).getD "0", (BLENDER_B_TABLE b).getD "0"⟩ := by
  unfold decode_blender_pamb
  rw [blenderPM_lt p hp, blenderA_lt a ha, blenderPM_lt m hm, blenderB_lt b hb]
  simp only [Option.getD_some]

/-- The source combiner decoder agrees, for every 64-bit mux, with the
explicit offset/width extraction of the spec. -/
theorem decode_combiner_mode_eq (mux : Nat) :
    decode_combiner_mode mux = some (specCombinerCycle1 mux, specCombinerCycle2 mux) := by
  have h8 : ∀ k : Nat, mux / 2 ^ k % 8 < 8 := fun k => Nat.mod_lt _ (by norm_num)
  simp only [decode_combiner_mode, decode_rgb_combiner_abcd,
    Nat.shiftRight_eq_div_pow, and_mask3, and_mask7, and_mask15, and_mask31]
  rw [decode_alpha_total _ _ _ _ (h8 44) (h8 12) (h8 41) (h8 9),
      decode_alpha_total _ _ _ _ (h8 21) (h8 3) (h8 18) (h8 0)]
  simp only [specCombinerCycle1, specCombinerCycle2, bitSlice]
  norm_num

/-- The source blender decoder agrees, for every 64-bit other-mode,
with the explicit offset/width extraction of the spec. -/
theorem decode_blender_mode_eq (om : Nat) :
    decode_blender_mode om = some (specBlenderCycle1 om, specBlenderCycle2 om) := by
  have h4 : ∀ k : Nat, om / 2 ^ k % 4 < 4 := fun k => Nat.mod_lt _ (by norm_num)
  simp only [decode_blender_mode, Nat.shiftRight_eq_div_pow, and_mask3]
  rw [decode_pamb_total _ _ _ _ (h4 30) (h4 26) (h4 22) (h4 18),
      decode_pamb_total _ _ _ _ (h4 28) (h4 24) (h4 20) (h4 16)]
  simp only [specBlenderCycle1, specBlenderCycle2, bitSlice]
  norm_num

/-! ## Claim C4 and C10 -/

/-- C4: for every 64-bit combiner mux, `decode_combiner_mode` extracts
the 16 sub-fields at exactly the claimed offsets and widths
(a_rgb1@52:4, c_rgb1@47:5, a_a1@44:3, c_a1@41:3, a_rgb2@37:4,
c_rgb2@32:5, b_rgb1@28:4, b_rgb2@24:4, a_a2@21:3, c_a2@18:3,
d_rgb1@15:3, b_a1@12:3, d_a1@9:3, d_rgb2@6:3, b_a2@3:3, d_a2@0:3),
maps each through its fixed table with missing RGB indices defaulting
to `"0"`, and returns per cycle the 8-tuple of RGB `(a,b,c,d)` followed
by Alpha `(a,b,c,d)`; a mux built from known sub-field values
reproduces the expected symbolic tuples. -/
theorem glr_c4_combiner_decode :
    (∀ mux : Nat, decode_combiner_mode mux =
        some (specCombinerCycle1 mux, specCombinerCycle2 mux))
    ∧ decode_combiner_mode
        ((1 <<< 52) + (4 <<< 47) + (1 <<< 44) + (4 <<< 41) + (31 <<< 32) +
         (8 <<< 28) + (7 <<< 15) + (7 <<< 12) + (7 <<< 9)) =
      some (⟨"Texel 0 Color", "0", "Shade Color", "0",
             "Texel 0 Alpha", "0", "Shade Alpha", "0"⟩,
            ⟨"Combined Color", "Combined Color", "0", "Combined Color",
             "Combined Alpha", "Combined Alpha", "LOD Fraction", "Combined Alpha"⟩) :=
  ⟨decode_combiner_mode_eq, by decide⟩

/-- C10: for every 64-bit combiner mux and other-mode value, the
combiner and blender decoders return without raising: the extracted
sub-fields are masked into the exact domains of the alpha and blender
lookup tables, so the missing-entry branch is unreachable. -/
theorem glr_c10_decoders_total (mux om : Nat) :
    (decode_combiner_mode mux).isSome = true
      ∧ (decode_blender_mode om).isSome = true := by
  rw [decode_combiner_mode_eq, decode_blender_mode_eq]
  exact ⟨rfl, rfl⟩

/-! ## Claim C6: blender simplicity classifier -/

theorem isSimpleMix_iff (bl : B4) :
    isSimpleMix bl = true ↔
      (bl.b = "One Minus A"
        ∧ bl.p ≠ "Framebuffer Color" ∧ bl.p ≠ "Framebuffer Alpha"
        ∧ bl.m ≠ "Framebuffer Color" ∧ bl.m ≠ "Framebuffer Alpha") := by
  simp only [isSimpleMix, Bool.and_eq_true, beq_iff_eq, Bool.not_eq_true',
    List.contains_cons, List.contains_nil, Bool.or_eq_false_iff, beq_eq_false_iff_ne]
  tauto

theorem c6_core (pi ai mi bi : Nat) (hp : pi < 4) (hm : mi < 4) (hb : bi < 4)
    (fog : Bool) (bl : B4)
    (hbl : bl = applyFogSub4 fog
        ⟨(BLENDER_PM_TABLE pi).getD "0", (BLENDER_A_TABLE ai).getD "0",
         (BLENDER_PM_TABLE mi).getD "0", (BLENDER_B_TABLE bi).getD "0"⟩) :
    isSimpleLerp bl = isSimpleMix bl := by
  subst hbl
  interval_cases pi <;> interval_cases mi <;> interval_cases bi <;> cases fog <;>
    simp [isSimpleLerp, isSimpleMix, applyFogSub4, substFog4, substFog,
      BLENDER_PM_TABLE, BLENDER_B_TABLE]

/-- C6: a decoded blender formula `(p, a, m, b)` (either cycle, with or
without the fog substitution) is realized as a single lerp/mix node iff
`b` is "One Minus A" and neither `p` nor `m` is "Framebuffer Color" or
"Framebuffer Alpha"; moreover the import_glr.py lerp classifier (which
only tests "Framebuffer Color") agrees with the shader.py mix
classifier on every decoded formula. -/
theorem glr_c6_blender_simple (om : Nat) (fog : Bool) (bl1 bl2 : B4)
    (h : decode_blender_mode om = some (bl1, bl2)) :
    ∀ bl : B4, (bl = applyFogSub4 fog bl1 ∨ bl = applyFogSub4 fog bl2) →
      (isSimpleMix bl = true ↔
        (bl.b = "One Minus A"
          ∧ bl.p ≠ "Framebuffer Color" ∧ bl.p ≠ "Framebuffer Alpha"
          ∧ bl.m ≠ "Framebuffer Color" ∧ bl.m ≠ "Framebuffer Alpha"))
      ∧ isSimpleLerp bl = isSimpleMix bl := by
  rw [decode_blender_mode_eq] at h
  have h' := Option.some.inj h
  have h1 : specBlenderCycle1 om = bl1 := congrArg Prod.fst h'
  have h2 : specBlenderCycle2 om = bl2 := congrArg Prod.snd h'
  intro bl hbl
  refine ⟨isSimpleMix_iff bl, ?_⟩
  rcases hbl with hbl | hbl
  · exact c6_core (bitSlice om 30 2) (bitSlice om 26 2) (bitSlice om 22 2)
      (bitSlice om 18 2) (Nat.mod_lt _ (by norm_num)) (Nat.mod_lt _ (by norm_num))
      (Nat.mod_lt _ (by norm_num)) fog bl (by rw [hbl, ← h1]; rfl)
  · exact c6_core (bitSlice om 28 2) (bitSlice om 24 2) (bitSlice om 20 2)
      (bitSlice om 16 2) (Nat.mod_lt _ (by norm_num)) (Nat.mod_lt _ (by norm_num))
      (Nat.mod_lt _ (by norm_num)) fog bl (by rw [hbl, ← h2]; rfl)

/-- Witness for C6 at the concrete other-mode 0 (first cycle decodes to
(Combined Color, Combined Alpha, Combined Color, One Minus A)). -/
theorem glr_c6_blender_simple_witness :
    isSimpleLerp ⟨"Combined Color", "Combined Alpha", "Combined Color", "One Minus A"⟩
      = isSimpleMix ⟨"Combined Color", "Combined Alpha", "Combined Color", "One Minus A"⟩ :=
  (glr_c6_blender_simple 0 false
      ⟨"Combined Color", "Combined Alpha", "Combined Color", "One Minus A"⟩
      ⟨"Combined Color", "Combined Alpha", "Combined Color", "One Minus A"⟩
      (by decide)
      ⟨"Combined Color", "Combined Alpha", "Combined Color", "One Minus A"⟩
      (Or.inl rfl)).2

/-! ## Claim C7: combiner formula rendering -/

/-- C7: evaluation of `show_combiner_formula` at the inputs the claim
describes.  The identities x - 0 = x, x*0 = 0, x*1 = x, 1*y = y and
x+0 = x hold as claimed, but in the `a = "0"` branch the source
formats the literal `a` (which is `"0"`), so `(0 - x) * 1 + 0` renders
as `"- 0"` rather than the claimed `"- x"`. -/
theorem glr_c7_formula_render :
    show_combiner_formula "0" "Shade Color" "1" "0" = "- 0"
      ∧ show_combiner_formula "0" "Shade Color" "1" "0" ≠ "- Shade Color"
      ∧ show_combiner_formula "Texel 0 Color" "0" "Shade Color" "0"
          = "Texel 0 Color × Shade Color"
      ∧ show_combiner_formula "Texel 0 Color" "Texel 0 Color" "Shade Color" "Env Color"
          = "Env Color"
      ∧ show_combiner_formula "Texel 0 Color" "0" "0" "Env Color" = "Env Color"
      ∧ show_combiner_formula "Texel 0 Color" "0" "1" "0" = "Texel 0 Color"
      ∧ show_combiner_formula "1" "0" "Shade Color" "0" = "Shade Color" := by
  refine ⟨rfl, ?_, rfl, rfl, rfl, rfl, rfl⟩
  decide

/-! ## Claim C8: texture-coordinate wrap emulation -/

/-- C8 counterexample: with clamp boundary 3 and wrap boundary 8 the
claimed mapping sends input 5 to 2, but the math-node chain built by
`make_texcoord_wrapper` (clamp applied first, then wrap) sends 5 to 3,
with or without mirroring; the wrap-then-clamp composition stated by
the claim also sends 5 to 3, so the claimed sequence is not produced
under any reading. -/
theorem glr_c8_wrap_counterexample :
    texAxisCoord 3 8 false 5 = 3 ∧ texAxisCoord 3 8 true 5 = 3
      ∧ wrapNode (clampNode 5 3) 8 = 3
      ∧ clampNode (wrapNode 5 8) 3 = 3
      ∧ clampNode (pingpongNode 5 8) 3 = 3
      ∧ (3 : Int) ≠ 2 := by
  refine ⟨?_, ?_, ?_, ?_, ?_, by decide⟩ <;> decide

/-- C8 amended: the per-axis coordinate chain applies the clamp node
first and the wrap node second; with clamp boundary 3 and wrap
boundary 8 (no mirror) the inputs 0..15 map to
0,1,2,3,3,3,3,3,3,3,3,3,3,3,3,3. -/
theorem glr_c8_wrap_sequence :
    ((List.range 16).map fun n => texAxisCoord 3 8 false (n : Int))
      = [0, 1, 2, 3, 3, 3, 3, 3, 3, 3, 3, 3, 3, 3, 3, 3] := by
  decide

/-! ## Claim C2: header version check -/

/-- C2: on a stream with valid magic, the header decoder accepts
exactly format version 3 (the version check passes, so the result is
`ok`, or `structError` when the rest of the header is truncated);
version values 1 and 2 produce the outdated-format error, and every
other value, 0 included, produces the distinct unknown-version
error. -/
theorem glr_c2_version_check (b0 b1 : Nat) (rest : List Nat) :
    (loadHeader (magicBytes ++ b0 :: b1 :: rest)
        = .error (.outdatedFormat (b0 + 256 * b1))
      ↔ (b0 + 256 * b1 = 1 ∨ b0 + 256 * b1 = 2))
    ∧ (loadHeader (magicBytes ++ b0 :: b1 :: rest)
        = .error (.unknownVersion (b0 + 256 * b1))
      ↔ (b0 + 256 * b1 ≠ 1 ∧ b0 + 256 * b1 ≠ 2 ∧ b0 + 256 * b1 ≠ 3))
    ∧ (((∃ hdr rest2, loadHeader (magicBytes ++ b0 :: b1 :: rest) = .ok (hdr, rest2))
        ∨ loadHeader (magicBytes ++ b0 :: b1 :: rest) = .error .structError)
      ↔ b0 + 256 * b1 = 3) := by
  have htake : (magicBytes ++ b0 :: b1 :: rest).take 6 = magicBytes :=
    List.take_left' rfl
  have hdrop : (magicBytes ++ b0 :: b1 :: rest).drop 6 = b0 :: b1 :: rest :=
    List.drop_left' rfl
  simp only [loadHeader, htake, hdrop, if_pos rfl]
  simp only [List.take, List.length_cons, List.length_nil, u16At, wordAt, byteAt,
    List.getD_cons_zero, List.getD_cons_succ]
  norm_num
  split_ifs with h1 h2 h3 <;>
    simp_all <;> omega

/-! ## Supporting lemmas: the triangle read loop -/

theorem drop_44_44_44 (bs : List Nat) :
    ((bs.drop 44).drop 44).drop 44 = bs.drop 132 := by
  simp [List.drop_drop]

theorem drop_132_132 (bs : List Nat) :
    (bs.drop 132).drop 132 = bs.drop 264 := by
  simp [List.drop_drop]

theorem stepTri_dropped (fm : Bool) (fl : List Nat) (bs : List Nat) (st : StateRec)
    (hst : parseState ((bs.drop 132).take 132) = some st)
    (hcond : (st.tex0Crc ∈ fl) ↔ fm = true) :
    stepTri ⟨fm, fl⟩ bs = .ok (none, bs.drop 264) := by
  simp only [stepTri, drop_44_44_44, drop_132_132, hst]
  cases fm
  · have hmem : ¬ st.tex0Crc ∈ fl := fun hc => by simpa using hcond.mp hc
    simp [hmem]
  · have hmem : st.tex0Crc ∈ fl := hcond.mpr rfl
    simp [hmem]

theorem stepTri_kept (fm : Bool) (fl : List Nat) (bs : List Nat) (st : StateRec)
    (hst : parseState ((bs.drop 132).take 132) = some st)
    (hcond : ¬ ((st.tex0Crc ∈ fl) ↔ fm = true)) :
    (∃ t : Tri, t.st = st ∧ stepTri ⟨fm, fl⟩ bs = .ok (some t, bs.drop 264))
      ∨ stepTri ⟨fm, fl⟩ bs = .error .structError := by
  simp only [stepTri, drop_44_44_44, drop_132_132, hst]
  have hblk : (if !fm then !(decide (st.tex0Crc ∈ fl)) else decide (st.tex0Crc ∈ fl)) = false := by
    cases fm
    · have hmem : st.tex0Crc ∈ fl := by
        by_contra hmem
        exact hcond (by simp [hmem])
      simp [hmem]
    · have hmem : ¬ st.tex0Crc ∈ fl := fun hc => hcond (by simp [hc])
      simp [hmem]
  rw [hblk]
  simp only [Bool.false_eq_true, if_false]
  rcases h1 : parseVert (bs.take 44) with _ | w1 <;>
    rcases h2 : parseVert ((bs.drop 44).take 44) with _ | w2 <;>
      rcases h3 : parseVert (((bs.drop 44).drop 44).take 44) with _ | w3 <;>
        simp

/-! ## Claim C3: CRC filtering -/

/-- C3: for every triangle record (a stream position whose 132-byte
state record parses) and every filter set, the triangle is dropped —
`stepTri` yields `none` and the loop continues on the rest of the
stream with the accumulated output unchanged, so no vertices, face or
material index are emitted for it — exactly when membership of its
texture-0 CRC in the filter set coincides with the filter mode
(deny mode `true`: dropped iff member; allow mode `false`: dropped iff
not member).  The CRC value 0 receives no special treatment. -/
theorem glr_c3_crc_filter (fm : Bool) (fl : List Nat) (bs : List Nat) (st : StateRec)
    (hst : parseState ((bs.drop 132).take 132) = some st) :
    (stepTri ⟨fm, fl⟩ bs = .ok (none, bs.drop 264) ↔ ((st.tex0Crc ∈ fl) ↔ fm = true))
    ∧ (((st.tex0Crc ∈ fl) ↔ fm = true) →
        ∀ n out, doTrisLoop ⟨fm, fl⟩ (n + 1) bs out = doTrisLoop ⟨fm, fl⟩ n (bs.drop 264) out) := by
  constructor
  · constructor
    · intro hstep
      by_contra hcond
      rcases stepTri_kept fm fl bs st hst hcond with ⟨t, _, hk⟩ | hk <;>
        rw [hk] at hstep <;> simp at hstep
    · exact stepTri_dropped fm fl bs st hst
  · intro hcond n out
    simp only [doTrisLoop, stepTri_dropped fm fl bs st hst hcond]

/-- Witness for C3: a 264-byte all-zero record under deny-mode
filtering with filter set `{0}` is dropped. -/
theorem glr_c3_crc_filter_witness :
    stepTri ⟨true, [0]⟩ (List.replicate 264 0)
      = .ok (none, (List.replicate 264 0).drop 264) :=
  ((glr_c3_crc_filter true [0] (List.replicate 264 0)
      ⟨[0, 0, 0, 0], [0, 0, 0, 0], [0, 0, 0, 0], [0, 0, 0, 0],
       0, 0, 0, 0, 0, 0, 0, 0, 0, 0, 0, 0, 0, 0, 0, 0, 0, 0, 0⟩
      (by decide)).1).mpr (by decide)

theorem stepTri_of_short (opts : Opts) (bs : List Nat) (h : bs.length < 264) :
    stepTri opts bs = .error .structError := by
  have hlen : ((bs.drop 132).take 132).length ≠ 132 := by
    simp only [List.length_take, List.length_drop]
    omega
  have hnone : parseState ((bs.drop 132).take 132) = none := by
    unfold parseState
    rw [if_neg hlen]
  simp only [stepTri, drop_44_44_44, hnone]

theorem stepTri_of_long (opts : Opts) (bs : List Nat) (h : 264 ≤ bs.length) :
    ∃ o, stepTri opts bs = .ok (o, bs.drop 264) := by
  have h1 : (bs.take 44).length = 44 := by
    simp only [List.length_take]
    omega
  have h2 : ((bs.drop 44).take 44).length = 44 := by
    simp only [List.length_take, List.length_drop]
    omega
  have h3 : (((bs.drop 44).drop 44).take 44).length = 44 := by
    simp only [List.length_take, List.length_drop]
    omega
  have h4 : ((bs.drop 132).take 132).length = 132 := by
    simp only [List.length_take, List.length_drop]
    omega
  simp only [stepTri, drop_44_44_44, drop_132_132, parseState, h4, if_pos,
    parseVert, h1, h2, h3]
  cases hblk : (if !opts.filterMode then
      !(decide (u64At ((bs.drop 132).take 132) 108 ∈ opts.filterList))
    else decide (u64At ((bs.drop 132).take 132) 108 ∈ opts.filterList)) <;> simp

theorem doTrisLoop_truncated (opts : Opts) :
    ∀ (n : Nat) (bs : List Nat) (out : Output), bs.length < 264 * n →
      doTrisLoop opts n bs out = .error .structError := by
  intro n
  induction n with
  | zero => intro bs out h; omega
  | succ m ih =>
    intro bs out h
    by_cases h264 : 264 ≤ bs.length
    · obtain ⟨o, ho⟩ := stepTri_of_long opts bs h264
      have hrest : (bs.drop 264).length < 264 * m := by
        simp only [List.length_drop]
        omega
      cases o with
      | none => simp only [doTrisLoop, ho]; exact ih _ _ hrest
      | some t => simp only [doTrisLoop, ho]; exact ih _ _ hrest
    · simp only [doTrisLoop, stepTri_of_short opts bs (by omega)]

/-! ## Claim C9: truncated streams -/

/-- C9: when the decoded header declares more triangles than the
remaining bytes can supply (fewer than 3 x 44 + 132 = 264 bytes per
declared record), the decode fails with the truncation error and
returns no output at all — the result is an error, not a partial
mesh. -/
theorem glr_c9_truncated (opts : Opts) (bs : List Nat) (hdr : GlrHeader)
    (rest : List Nat) (hhdr : loadHeader bs = .ok (hdr, rest))
    (hshort : rest.length < 264 * hdr.numTris) :
    glrDecode opts bs = .error .structError := by
  simp only [glrDecode, hhdr]
  exact doTrisLoop_truncated opts _ _ _ hshort

/-- Witness for C9: a header declaring 5 triangles followed by only
2 x 264 bytes (exactly the spec's truncated-stream scenario). -/
theorem glr_c9_truncated_witness :
    glrDecode ⟨true, []⟩
        (magicBytes ++ [3, 0] ++ List.replicate 20 0 ++ [5, 0, 0, 0] ++
          [0, 0, 0, 0] ++ List.replicate 528 0)
      = .error .structError :=
  glr_c9_truncated ⟨true, []⟩ _ ⟨List.replicate 20 0, 5, 0⟩ (List.replicate 528 0)
    (by rfl) (by decide)

/-! ## Supporting lemmas: the material dedup cache -/

theorem emitTri_mats (out : Output) (t : Tri) :
    (emitTri out t).mats = insertKey out.mats (matKeyOf t) := rfl

theorem emitTri_faceMats (out : Output) (t : Tri) :
    (emitTri out t).faceMaterials
      = out.faceMaterials ++ [idxOfKey (matKeyOf t) out.mats] := rfl

theorem foldl_emitTri_mats (ts : List Tri) : ∀ out : Output,
    (ts.foldl emitTri out).mats = accKeys out.mats (ts.map matKeyOf) := by
  induction ts with
  | nil => intro out; rfl
  | cons t ts ih =>
    intro out
    simp only [List.foldl_cons, List.map_cons, accKeys]
    rw [ih (emitTri out t), emitTri_mats]
    rfl

theorem idxOfKey_append {α : Type} [DecidableEq α] (k : α) (ms l : List α)
    (h : k ∈ ms) : idxOfKey k (ms ++ l) = idxOfKey k ms := by
  induction ms with
  | nil => cases h
  | cons x xs ih =>
    by_cases hx : x = k
    · simp [idxOfKey, hx]
    · have hxs : k ∈ xs := by
        rcases List.mem_cons.mp h with h' | h'
        · exact absurd h'.symm hx
        · exact h'
      simp [idxOfKey, hx, ih hxs]

theorem idxOfKey_of_not_mem {α : Type} [DecidableEq α] (k : α) (ms : List α)
    (h : ¬ k ∈ ms) : idxOfKey k ms = ms.length := by
  induction ms with
  | nil => rfl
  | cons x xs ih =>
    have hx : ¬ x = k := fun hc => h (hc ▸ List.mem_cons_self x xs)
    have hxs : ¬ k ∈ xs := fun hc => h (List.mem_cons_of_mem x hc)
    simp [idxOfKey, hx, ih hxs]

theorem idxOfKey_insertKey_self {α : Type} [DecidableEq α] (ms : List α) (k : α) :
    idxOfKey k (insertKey ms k) = idxOfKey k ms := by
  unfold insertKey
  by_cases h : k ∈ ms
  · simp [h]
  · rw [if_neg h, idxOfKey_of_not_mem k ms h]
    induction ms with
    | nil => simp [idxOfKey]
    | cons x xs ih =>
      have hx : ¬ x = k := fun hc => h (hc ▸ List.mem_cons_self x xs)
      have hxs : ¬ k ∈ xs := fun hc => h (List.mem_cons_of_mem x hc)
      simp [idxOfKey, hx, ih hxs]

theorem mem_insertKey_self {α : Type} [DecidableEq α] (ms : List α) (k : α) :
    k ∈ insertKey ms k := by
  unfold insertKey
  by_cases h : k ∈ ms
  · simp only [if_pos h]
    exact h
  · simp [h]

theorem mem_insertKey_of_mem {α : Type} [DecidableEq α] {ms : List α} {k : α}
    (k2 : α) (h : k ∈ ms) : k ∈ insertKey ms k2 := by
  unfold insertKey
  by_cases h2 : k2 ∈ ms
  · simp only [if_pos h2]
    exact h
  · simp [h2, List.mem_append]
    exact Or.inl h

theorem idxOfKey_insertKey_of_mem {α : Type} [DecidableEq α] {ms : List α} {k : α}
    (k2 : α) (h : k ∈ ms) : idxOfKey k (insertKey ms k2) = idxOfKey k ms := by
  unfold insertKey
  by_cases h2 : k2 ∈ ms
  · simp [h2]
  · rw [if_neg h2, idxOfKey_append k ms [k2] h]

theorem idxOfKey_accKeys {α : Type} [DecidableEq α] (k : α) (ks : List α) :
    ∀ ms : List α, k ∈ ms → idxOfKey k (accKeys ms ks) = idxOfKey k ms := by
  induction ks with
  | nil => intro ms _; rfl
  | cons k2 ks ih =>
    intro ms h
    show idxOfKey k (accKeys (insertKey ms k2) ks) = idxOfKey k ms
    rw [ih (insertKey ms k2) (mem_insertKey_of_mem k2 h),
      idxOfKey_insertKey_of_mem k2 h]

theorem foldl_emitTri_faceMats (ts : List Tri) : ∀ out : Output,
    (ts.foldl emitTri out).faceMaterials
      = out.faceMaterials
        ++ ts.map (fun t => idxOfKey (matKeyOf t) ((ts.foldl emitTri out).mats)) := by
  induction ts with
  | nil => intro out; simp
  | cons t ts ih =>
    intro out
    simp only [List.foldl_cons, List.map_cons]
    rw [ih (emitTri out t), emitTri_faceMats]
    have hidx : idxOfKey (matKeyOf t) ((ts.foldl emitTri (emitTri out t)).mats)
        = idxOfKey (matKeyOf t) out.mats := by
      rw [foldl_emitTri_mats, emitTri_mats,
        idxOfKey_accKeys _ _ _ (mem_insertKey_self out.mats (matKeyOf t)),
        idxOfKey_insertKey_self]
    rw [hidx]
    simp [List.append_assoc]

theorem mem_dedupFS {α : Type} [DecidableEq α] (l : List α) (x : α) :
    x ∈ dedupFS l ↔ x ∈ l := by
  induction l with
  | nil => simp [dedupFS]
  | cons k ks ih =>
    by_cases hx : x = k
    · simp [dedupFS, hx]
    · simp [dedupFS, hx, List.mem_filter, ih]

theorem nodup_dedupFS {α : Type} [DecidableEq α] (l : List α) :
    (dedupFS l).Nodup := by
  induction l with
  | nil => exact List.nodup_nil
  | cons k ks ih =>
    refine List.Nodup.cons ?_ (List.Nodup.filter _ ih)
    intro hc
    rcases List.mem_filter.mp hc with ⟨_, hne⟩
    simp at hne

theorem accKeys_eq_dedupFS {α : Type} [DecidableEq α] (ks : List α) :
    ∀ ms : List α,
      accKeys ms ks = ms ++ (dedupFS ks).filter (fun x => decide (¬ x ∈ ms)) := by
  induction ks with
  | nil => intro ms; simp [accKeys, dedupFS]
  | cons k ks ih =>
    intro ms
    show accKeys (insertKey ms k) ks = _
    rw [ih (insertKey ms k)]
    unfold insertKey
    by_cases hk : k ∈ ms
    · rw [if_pos hk]
      congr 1
      show (dedupFS ks).filter _ = ((dedupFS (k :: ks)).filter fun x => decide (¬ x ∈ ms))
      rw [dedupFS]
      rw [List.filter_cons_of_neg (by simp [hk]), List.filter_filter]
      refine (List.filter_congr ?_).symm
      intro x _
      by_cases hxk : x = k
      · simp [hxk, hk]
      · simp [hxk]
    · rw [if_neg hk]
      rw [List.append_assoc]
      congr 1
      show [k] ++ _ = (dedupFS (k :: ks)).filter fun x => decide (¬ x ∈ ms)
      rw [dedupFS]
      rw [List.filter_cons_of_pos (by simp [hk]), List.filter_filter]
      simp only [List.singleton_append, List.cons.injEq, true_and]
      refine List.filter_congr ?_
      intro x _
      by_cases hxk : x = k
      · simp [hxk, List.mem_append, hk]
      · simp [hxk, List.mem_append]

theorem accKeys_nil_eq_dedupFS {α : Type} [DecidableEq α] (ks : List α) :
    accKeys [] ks = dedupFS ks := by
  rw [accKeys_eq_dedupFS]
  simp

/-- Relates the byte-level loop to the pure fold over the surviving
triangles it decodes. -/
theorem doTrisLoop_eq_fold (opts : Opts) :
    ∀ (n : Nat) (bs : List Nat) (out : Output),
      doTrisLoop opts n bs out
        = (decodeTriList opts n bs).map (fun ts => ts.foldl emitTri out) := by
  intro n
  induction n with
  | zero => intro bs out; rfl
  | succ m ih =>
    intro bs out
    simp only [doTrisLoop, decodeTriList]
    cases hstep : stepTri opts bs with
    | error e => rfl
    | ok r =>
      rcases r with ⟨o, rest⟩
      cases o with
      | none => exact ih rest out
      | some t =>
        show doTrisLoop opts m rest (emitTri out t)
            = Except.map (fun ts => List.foldl emitTri out ts)
                (Except.map (fun x => t :: x) (decodeTriList opts m rest))
        rw [ih rest (emitTri out t)]
        cases hrec : decodeTriList opts m rest <;> rfl

/-! ## Claim C1: material deduplication -/

/-- C1: over any list of surviving triangles, the `do_tris` fold
assigns every face the position of its 9-field material key in the
final material list, so two surviving triangles with bit-identical
keys receive the same index; the material list is exactly the
first-seen-order deduplication of the stream's keys and contains no
duplicates. -/
theorem glr_c1_material_dedup (ts : List Tri) :
    ((ts.foldl emitTri emptyOutput).mats = dedupFS (ts.map matKeyOf))
    ∧ ((ts.foldl emitTri emptyOutput).mats).Nodup
    ∧ ((ts.foldl emitTri emptyOutput).faceMaterials
        = ts.map fun t => idxOfKey (matKeyOf t) ((ts.foldl emitTri emptyOutput).mats)) := by
  have hm : (ts.foldl emitTri emptyOutput).mats = dedupFS (ts.map matKeyOf) := by
    rw [foldl_emitTri_mats]
    exact accKeys_nil_eq_dedupFS _
  refine ⟨hm, hm ▸ nodup_dedupFS _, ?_⟩
  have hf := foldl_emitTri_faceMats ts emptyOutput
  simpa using hf

/-! ## Supporting lemmas: material creation cache -/

theorem occCount_eq_zero_of_not_mem {α : Type} [DecidableEq α] {l : List α} {a : α}
    (h : ¬ a ∈ l) : occCount l a = 0 := by
  induction l with
  | nil => rfl
  | cons x xs ih =>
    have hx : ¬ x = a := fun hc => h (hc ▸ List.mem_cons_self x xs)
    have hxs : ¬ a ∈ xs := fun hc => h (List.mem_cons_of_mem x hc)
    simp [occCount, hx, ih hxs]

theorem occCount_eq_one_of_nodup_mem {α : Type} [DecidableEq α] {l : List α} {a : α}
    (hnd : l.Nodup) (h : a ∈ l) : occCount l a = 1 := by
  induction l with
  | nil => cases h
  | cons x xs ih =>
    rcases List.nodup_cons.mp hnd with ⟨hx, hxs⟩
    by_cases hxa : x = a
    · subst hxa
      simp [occCount, occCount_eq_zero_of_not_mem hx]
    · have ha : a ∈ xs := by
        rcases List.mem_cons.mp h with h' | h'
        · exact absurd h'.symm hxa
        · exact h'
      simp [occCount, hxa, ih hxs ha]

theorem createMaterialsLoop_mem (mc : Nat) (dc sa : Bool) :
    ∀ (ks : List MatKey) (built out : List Args),
      createMaterialsLoop mc dc sa ks built = some out →
        ∀ x ∈ built, x ∈ out := by
  intro ks
  induction ks with
  | nil =>
    intro built out h x hx
    cases h
    exact hx
  | cons k ks ih =>
    intro built out h x hx
    simp only [createMaterialsLoop] at h
    cases hres : resolveArgs mc dc sa k with
    | none => rw [hres] at h; cases h
    | some a =>
      rw [hres] at h
      refine ih _ _ h x ?_
      by_cases hmem : a ∈ built
      · simpa [hmem] using hx
      · simp only [if_neg hmem]
        exact List.mem_append_left _ hx

theorem createMaterialsLoop_nodup (mc : Nat) (dc sa : Bool) :
    ∀ (ks : List MatKey) (built out : List Args),
      built.Nodup → createMaterialsLoop mc dc sa ks built = some out →
        out.Nodup := by
  intro ks
  induction ks with
  | nil =>
    intro built out hnd h
    cases h
    exact hnd
  | cons k ks ih =>
    intro built out hnd h
    simp only [createMaterialsLoop] at h
    cases hres : resolveArgs mc dc sa k with
    | none => rw [hres] at h; cases h
    | some a =>
      rw [hres] at h
      refine ih _ _ ?_ h
      by_cases hmem : a ∈ built
      · simpa [hmem]
      · simp only [if_neg hmem]
        refine List.nodup_append.mpr ⟨hnd, List.nodup_singleton a, ?_⟩
        intro x hx hx'
        rcases List.mem_singleton.mp hx' with rfl
        exact hmem hx

theorem createMaterialsLoop_handed (mc : Nat) (dc sa : Bool) :
    ∀ (ks : List MatKey) (built out : List Args),
      createMaterialsLoop mc dc sa ks built = some out →
        ∀ k ∈ ks, ∃ a, resolveArgs mc dc sa k = some a ∧ a ∈ out := by
  intro ks
  induction ks with
  | nil =>
    intro built out _ k hk
    cases hk
  | cons k' ks ih =>
    intro built out h k hk
    simp only [createMaterialsLoop] at h
    cases hres : resolveArgs mc dc sa k' with
    | none => rw [hres] at h; cases h
    | some a =>
      rw [hres] at h
      rcases List.mem_cons.mp hk with rfl | hk'
      · refine ⟨a, hres, ?_⟩
        refine createMaterialsLoop_mem mc dc sa ks _ out h a ?_
        by_cases hmem : a ∈ built
        · simp [hmem]
        · simp [if_neg hmem]
      · exact ih _ _ h k hk'

/-! ## Claim C5: each pipeline handed to graph construction once -/

/-- C5: during one decode (starting with an empty material database),
running the material-creation loop over the deduplicated key list
hands, for every unique MaterialKey, its resolved pipeline description
to the shader-graph construction step exactly once: the description of
every key occurs exactly once in the handed list (never twice, never
zero times). -/
theorem glr_c5_pipeline_once (mc : Nat) (dc sa : Bool) (keys : List MatKey)
    (handed : List Args)
    (hrun : createMaterialsLoop mc dc sa keys [] = some handed) :
    handed.Nodup
    ∧ ∀ k ∈ keys, ∃ a, resolveArgs mc dc sa k = some a ∧ occCount handed a = 1 := by
  have hnd : handed.Nodup :=
    createMaterialsLoop_nodup mc dc sa keys [] handed List.nodup_nil hrun
  refine ⟨hnd, fun k hk => ?_⟩
  obtain ⟨a, ha, hmem⟩ :=
    createMaterialsLoop_handed mc dc sa keys [] handed hrun k hk
  exact ⟨a, ha, occCount_eq_one_of_nodup_mem hnd hmem⟩

/-- Witness for C5 at the all-zero material key. -/
theorem glr_c5_pipeline_once_witness :
    ([(⟨⟨"Combined Color", "Combined Color", "Combined Color", "Combined Color",
         "Combined Alpha", "Combined Alpha", "LOD Fraction", "Combined Alpha"⟩,
        none,
        ⟨"Combined Color", "Combined Alpha", "Combined Color", "One Minus A"⟩,
        none,
        ⟨0, "Closest", "Repeat", "Repeat", "UV0"⟩,
        ⟨0, "Closest", "Repeat", "Repeat", "UV1"⟩,
        false, true⟩ : Args)] : List Args).Nodup :=
  (glr_c5_pipeline_once 0 false true [⟨0, 0, 0, 0, 0, 0, 0, 0, 0⟩] _ (by decide)).1
